import Mathlib

/-!
Verification of the HighPerformanceTensorFlowOnAzure notebooks.

Shallow embedding of the local computations of the repository:
the image enumerator (create_image_list), the batching generator
(ImageGenerator), the bottleneck-feature preparation cell, the training
script CLI flag table, the compute-target lookup logic, and the
hyperdrive grid-search configuration.  Python sequences become Lean
lists, Python slices become drop/take, the Python dict comprehension
becomes a left fold of insertions, and decimal literals of the source
become an exact mantissa/exponent representation.
-/

/-- Python slice l[a:b] for 0 ≤ a ≤ b: the elements at positions a..b-1,
clamped to the length of the list. -/
def pySlice {α : Type} (l : List α) (a b : Nat) : List α :=
  (l.drop a).take (b - a)

/-- Embedding of class ImageGenerator(tf.keras.utils.Sequence) from
src/Sandbox/TrainingCodeSnippets.ipynb.  The element type of the image
list is kept abstract; the source stores pathname strings.  The source
default for batch_size is 64 (callers of the embedding pass it
explicitly). -/
structure ImageGenerator (α : Type) where
  image_list : List α
  batch_size : Nat

/-- def __len__(self): return len(self.image_list) // self.batch_size -/
def ImageGenerator.len {α : Type} (g : ImageGenerator α) : Nat :=
  g.image_list.length / g.batch_size

/-- def __getitem__(self, index): the slice
image_list[index*batch_size : (index+1)*batch_size].  Loading and
preprocessing map over this slice elementwise and do not change which
positions are taken. -/
def ImageGenerator.getitem {α : Type} (g : ImageGenerator α) (index : Nat) : List α :=
  pySlice g.image_list (index * g.batch_size) ((index + 1) * g.batch_size)

/-- The batches emitted when Model.predict_generator consumes the
Sequence: batch indices 0 .. __len__() - 1, in order. -/
def ImageGenerator.batches {α : Type} (g : ImageGenerator α) : List (List α) :=
  (List.range g.len).map g.getitem

lemma ImageGenerator.getitem_eq {α : Type} (g : ImageGenerator α) (i : Nat) :
    g.getitem i = (g.image_list.drop (i * g.batch_size)).take g.batch_size := by
  unfold ImageGenerator.getitem pySlice
  congr 1
  rw [Nat.succ_mul]
  omega

lemma ImageGenerator.range_map_getitem_flatten {α : Type} (g : ImageGenerator α) (n : Nat) :
    ((List.range n).map g.getitem).flatten = g.image_list.take (n * g.batch_size) := by
  induction n with
  | zero => simp
  | succ n ih =>
      rw [List.range_succ, List.map_append, List.flatten_append, ih]
      simp only [List.map_cons, List.map_nil, List.flatten_cons, List.flatten_nil,
        List.append_nil, ImageGenerator.getitem_eq]
      rw [Nat.succ_mul, List.take_add]

lemma ImageGenerator.batches_flatten {α : Type} (g : ImageGenerator α) :
    g.batches.flatten = g.image_list.take (g.len * g.batch_size) :=
  ImageGenerator.range_map_getitem_flatten g g.len

/-- C1: for M images and batch size B > 0 the generator emits exactly
floor(M / B) batches; the emitted batches together cover exactly the
first floor(M / B) * B images of the list, so the final M mod B images
(the remainder below one full batch) are never processed. -/
theorem c1_batch_truncation {α : Type} (g : ImageGenerator α) (h : 0 < g.batch_size) :
    g.batches.length = g.image_list.length / g.batch_size ∧
    g.batches.flatten =
      g.image_list.take ((g.image_list.length / g.batch_size) * g.batch_size) ∧
    (g.image_list.drop ((g.image_list.length / g.batch_size) * g.batch_size)).length =
      g.image_list.length % g.batch_size := by
  refine ⟨?_, ?_, ?_⟩
  · simp [ImageGenerator.batches, ImageGenerator.len]
  · rw [ImageGenerator.batches_flatten]; rfl
  · rw [List.length_drop]
    have hdm : g.image_list.length / g.batch_size * g.batch_size +
        g.image_list.length % g.batch_size = g.image_list.length := by
      rw [Nat.mul_comm]
      exact Nat.div_add_mod _ _
    have hle := Nat.div_mul_le_self g.image_list.length g.batch_size
    omega

/-- Witness for c1_batch_truncation: five images, batch size two. -/
theorem c1_batch_truncation_witness :
    (0 < 2) ∧
    ((ImageGenerator.mk [10, 20, 30, 40, 50] 2).batches.length = 5 / 2 ∧
     (ImageGenerator.mk [10, 20, 30, 40, 50] 2).batches.flatten =
       [10, 20, 30, 40, 50].take ((5 / 2) * 2) ∧
     ([10, 20, 30, 40, 50].drop ((5 / 2) * 2)).length = 5 % 2) :=
  ⟨by decide, c1_batch_truncation (ImageGenerator.mk [10, 20, 30, 40, 50] 2) (by decide)⟩

/-- C9: for 0 ≤ i < floor(M / B), batch i is built from exactly the
images at positions i*B .. (i+1)*B - 1 of the list, in their original
order; in particular every emitted batch holds exactly B images. -/
theorem c9_batch_contents {α : Type} (g : ImageGenerator α) (h : 0 < g.batch_size)
    (i k : Nat) (hi : i < g.len) (hk : k < g.batch_size) :
    (g.getitem i).length = g.batch_size ∧
    (g.getitem i)[k]? = g.image_list[i * g.batch_size + k]? := by
  have hmul : (i + 1) * g.batch_size ≤ g.image_list.length := by
    have h1 : i + 1 ≤ g.image_list.length / g.batch_size := hi
    have h2 : (i + 1) * g.batch_size ≤ (g.image_list.length / g.batch_size) * g.batch_size :=
      Nat.mul_le_mul_right _ h1
    exact le_trans h2 (Nat.div_mul_le_self _ _)
  constructor
  · rw [ImageGenerator.getitem_eq, List.length_take, List.length_drop]
    have : (i + 1) * g.batch_size = i * g.batch_size + g.batch_size := by
      rw [Nat.succ_mul]
    omega
  · rw [ImageGenerator.getitem_eq, List.getElem?_take, if_pos hk, List.getElem?_drop]

/-- Witness for c9_batch_contents: five images, batch size two, batch
index one, offset zero. -/
theorem c9_batch_contents_witness :
    (0 < 2) ∧ (1 < (ImageGenerator.mk [10, 20, 30, 40, 50] 2).len) ∧ (0 < 2) ∧
    (((ImageGenerator.mk [10, 20, 30, 40, 50] 2).getitem 1).length = 2 ∧
     ((ImageGenerator.mk [10, 20, 30, 40, 50] 2).getitem 1)[0]? = [10, 20, 30, 40, 50][1 * 2 + 0]?) :=
  ⟨by decide, by decide, by decide,
    c9_batch_contents (ImageGenerator.mk [10, 20, 30, 40, 50] 2) (by decide) 1 0
      (by decide) (by decide)⟩

/-- Python string comparison on the underlying character lists:
strict lexicographic order on Unicode code points, as used by
folders.sort() in the source. -/
def pyStrLtAux : List Char → List Char → Bool
  | _, [] => false
  | [], _ :: _ => true
  | a :: as, b :: bs => a < b || (a = b && pyStrLtAux as bs)

/-- Non-strict Python string comparison on whole strings. -/
def pyStrLe (a b : String) : Bool :=
  a = b || pyStrLtAux a.data b.data

lemma pyStrLtAux_trans (as bs cs : List Char) (h1 : pyStrLtAux as bs = true)
    (h2 : pyStrLtAux bs cs = true) : pyStrLtAux as cs = true := by
  induction as generalizing bs cs with
  | nil =>
      cases bs with
      | nil => simp [pyStrLtAux] at h1
      | cons b bs' =>
          cases cs with
          | nil => simp [pyStrLtAux] at h2
          | cons c cs' => simp [pyStrLtAux]
  | cons a as' ih =>
      cases bs with
      | nil => simp [pyStrLtAux] at h1
      | cons b bs' =>
          cases cs with
          | nil => simp [pyStrLtAux] at h2
          | cons c cs' =>
              simp only [pyStrLtAux, Bool.or_eq_true, Bool.and_eq_true,
                decide_eq_true_eq] at h1 h2 ⊢
              rcases h1 with h1 | ⟨hab, h1⟩
              · rcases h2 with h2 | ⟨hbc, h2⟩
                · exact Or.inl (lt_trans h1 h2)
                · exact Or.inl (hbc ▸ h1)
              · rcases h2 with h2 | ⟨hbc, h2⟩
                · exact Or.inl (hab ▸ h2)
                · exact Or.inr ⟨hab.trans hbc, ih bs' cs' h1 h2⟩

lemma pyStrLtAux_total (as bs : List Char) :
    pyStrLtAux as bs = true ∨ pyStrLtAux bs as = true ∨ as = bs := by
  induction as generalizing bs with
  | nil =>
      cases bs with
      | nil => exact Or.inr (Or.inr rfl)
      | cons b bs' => exact Or.inl (by simp [pyStrLtAux])
  | cons a as' ih =>
      cases bs with
      | nil => exact Or.inr (Or.inl (by simp [pyStrLtAux]))
      | cons b bs' =>
          rcases lt_trichotomy a b with hab | hab | hab
          · exact Or.inl (by simp [pyStrLtAux, hab])
          · rcases ih bs' with h | h | h
            · exact Or.inl (by simp [pyStrLtAux, hab, h])
            · exact Or.inr (Or.inl (by simp [pyStrLtAux, hab, h]))
            · exact Or.inr (Or.inr (by rw [hab, h]))
          · exact Or.inr (Or.inl (by simp [pyStrLtAux, hab]))

instance : IsTrans String (fun a b => pyStrLe a b = true) := by
  constructor
  intro a b c h1 h2
  simp only [pyStrLe, Bool.or_eq_true, decide_eq_true_eq] at h1 h2 ⊢
  rcases h1 with h1 | h1
  · subst h1; exact h2
  · rcases h2 with h2 | h2
    · subst h2; exact Or.inr h1
    · exact Or.inr (pyStrLtAux_trans _ _ _ h1 h2)

instance : IsTotal String (fun a b => pyStrLe a b = true) := by
  constructor
  intro a b
  by_cases hab : a = b
  · exact Or.inl (by simp [pyStrLe, hab])
  · rcases pyStrLtAux_total a.data b.data with h | h | h
    · exact Or.inl (by simp [pyStrLe, h])
    · exact Or.inr (by simp [pyStrLe, h])
    · exact absurd (String.ext h) hab

/-- Insertion of one key/value pair into a Python dict viewed as a total
function: a later insertion for the same key overwrites the earlier one. -/
def dictInsert (m : String → Nat) (kv : String × Nat) : String → Nat :=
  fun k => if k = kv.1 then kv.2 else m k

/-- A Python dict comprehension over a list of key/value pairs, read as a
total function on keys (keys that were never inserted map to 0; the
source never queries such a key). -/
def pyDict (pairs : List (String × Nat)) : String → Nat :=
  pairs.foldl dictInsert (fun _ => 0)

lemma foldl_dictInsert_not_mem (pairs : List (String × Nat)) (m : String → Nat)
    (k : String) (h : ∀ p ∈ pairs, p.1 ≠ k) :
    pairs.foldl dictInsert m k = m k := by
  induction pairs generalizing m with
  | nil => rfl
  | cons p rest ih =>
      rw [List.foldl_cons, ih (dictInsert m p) (fun q hq => h q (List.mem_cons_of_mem _ hq))]
      unfold dictInsert
      exact if_neg (fun hk => (h p (List.mem_cons_self _ _)) hk.symm)

lemma foldl_dictInsert_mem (pairs : List (String × Nat)) (k : String) (v : Nat) :
    ∀ m : String → Nat, (pairs.map Prod.fst).Nodup → (k, v) ∈ pairs →
      pairs.foldl dictInsert m k = v := by
  induction pairs with
  | nil => intro m _ hm; cases hm
  | cons p rest ih =>
      intro m hnd hm
      rw [List.map_cons, List.nodup_cons] at hnd
      rw [List.foldl_cons]
      rcases List.mem_cons.mp hm with heq | hmem
      · have hk : k = p.1 := congrArg Prod.fst heq
        have hv : v = p.2 := congrArg Prod.snd heq
        rw [foldl_dictInsert_not_mem rest (dictInsert m p) k ?_]
        · unfold dictInsert
          rw [if_pos hk, hv]
        · intro q hq hqk
          have hqp : q.1 = p.1 := hqk.trans hk
          exact hnd.1 (hqp ▸ List.mem_map_of_mem Prod.fst hq)
      · exact ih (dictInsert m p) hnd.2 hmem

/-- A directory listing for the image root: one entry per subfolder,
holding the folder name (as produced by os.listdir of the root) and the
file names inside that folder (as produced by os.listdir of the folder).
A real filesystem never lists the same name twice, which the theorems
record as a Nodup hypothesis on the folder names. -/
abbrev DirListing : Type := List (String × List String)

/-- folders = os.listdir(img_dir); folders.sort().  Python list.sort is
a stable comparison sort; the embedding uses insertion sort, which
agrees with it on every comparison function that is total and
transitive. -/
def folders (dir : DirListing) : List String :=
  List.insertionSort (fun a b => pyStrLe a b = true) (dir.map Prod.fst)

/-- os.listdir(os.path.join(img_dir, folder)): the contents of the named
subfolder in the listing (unknown names give an empty listing; the
source only queries names from the root listing). -/
def imagesOf (dir : DirListing) (folder : String) : List String :=
  ((dir.find? (fun e => e.1 == folder)).map Prod.snd).getD []

/-- label_map = the dict comprehension over zip(folders, range(len(folders)))
after the sort, read as a total function on folder names. -/
def label_map (fs : List String) : String → Nat :=
  pyDict (fs.zip (List.range fs.length))

/-- The labeled_image_list comprehension of create_image_list: for each
folder in sorted order, for each image listed in it, the joined path
together with label_map[folder]. -/
def labeled_image_list (img_dir : String) (dir : DirListing) : List (String × Nat) :=
  (folders dir).flatMap (fun folder =>
    (imagesOf dir folder).map (fun image =>
      (img_dir ++ "/" ++ folder ++ "/" ++ image, label_map (folders dir) folder)))

/-- Python zip(*rows) for a list of pairs: the transpose.  A nonempty
list of pairs yields exactly two rows (the first components, then the
second components); an empty list yields zero rows, not two empty
rows. -/
def pyZipStar (l : List (String × Nat)) : List (List (String ⊕ Nat)) :=
  match l with
  | [] => []
  | _ :: _ => [l.map (fun p => Sum.inl p.1), l.map (fun p => Sum.inr p.2)]

/-- create_image_list from src/Sandbox/TrainingCodeSnippets.ipynb:
returns zip(*labeled_image_list). -/
def create_image_list (img_dir : String) (dir : DirListing) : List (List (String ⊕ Nat)) :=
  pyZipStar (labeled_image_list img_dir dir)

/-- The image-path sequence the caller unpacks from create_image_list
(first row of the transpose, when it exists). -/
def img_list (img_dir : String) (dir : DirListing) : List String :=
  (labeled_image_list img_dir dir).map Prod.fst

/-- The label sequence the caller unpacks from create_image_list
(second row of the transpose, when it exists). -/
def label_list (img_dir : String) (dir : DirListing) : List Nat :=
  (labeled_image_list img_dir dir).map Prod.snd

lemma folders_nodup (dir : DirListing) (h : (dir.map Prod.fst).Nodup) :
    (folders dir).Nodup :=
  (List.perm_insertionSort (fun a b => pyStrLe a b = true) (dir.map Prod.fst)).nodup_iff.mpr h

lemma label_map_get (fs : List String) (h : fs.Nodup) (i : Nat) (hi : i < fs.length) :
    label_map fs (fs.get ⟨i, hi⟩) = i := by
  unfold label_map pyDict
  apply foldl_dictInsert_mem
  · rw [List.map_fst_zip]
    · exact h
    · rw [List.length_range]
  · have hz : i < (fs.zip (List.range fs.length)).length := by
      rw [List.length_zip, List.length_range]
      simp [hi]
    have hel : (fs.zip (List.range fs.length))[i] = (fs.get ⟨i, hi⟩, i) := by
      rw [List.getElem_zip, List.getElem_range]
      simp [List.get_eq_getElem]
    exact hel ▸ List.getElem_mem hz

lemma label_list_eq (img_dir : String) (dir : DirListing) :
    label_list img_dir dir = (folders dir).flatMap (fun folder =>
      List.replicate (imagesOf dir folder).length (label_map (folders dir) folder)) := by
  unfold label_list labeled_image_list
  rw [List.map_flatMap]
  congr 1
  funext folder
  rw [List.map_map]
  exact List.map_const' _ _

lemma create_image_list_of_ne (img_dir : String) (dir : DirListing)
    (hne : labeled_image_list img_dir dir ≠ []) :
    create_image_list img_dir dir =
      [(img_list img_dir dir).map Sum.inl, (label_list img_dir dir).map Sum.inr] := by
  unfold create_image_list pyZipStar img_list label_list
  cases hl : labeled_image_list img_dir dir with
  | nil => exact absurd hl hne
  | cons p rest => simp [List.map_map]

/-- C2: for a root directory with N class subfolders (distinct names, as
on a real filesystem) and at least one image, the enumerator assigns the
integer labels 0..N-1 to the classes in the lexicographic order of their
folder names, and the label sequence it returns has the same length as
the image-path sequence it returns. -/
theorem c2_enumerator_labels (img_dir : String) (dir : DirListing)
    (hnd : (dir.map Prod.fst).Nodup)
    (hne : labeled_image_list img_dir dir ≠ [])
    (i : Nat) (hi : i < (folders dir).length) :
    label_map (folders dir) ((folders dir).get ⟨i, hi⟩) = i ∧
    (label_list img_dir dir).length = (img_list img_dir dir).length ∧
    create_image_list img_dir dir =
      [(img_list img_dir dir).map Sum.inl, (label_list img_dir dir).map Sum.inr] := by
  refine ⟨label_map_get _ (folders_nodup dir hnd) i hi, ?_,
    create_image_list_of_ne _ _ hne⟩
  simp [label_list, img_list]

/-- Concrete directory for the C2 witness: two classes, three images. -/
def c2dir : DirListing := [("water", ["w1"]), ("forest", ["f1", "f2"])]

/-- Witness for c2_enumerator_labels: class at sorted position 1 is
water and carries label 1. -/
theorem c2_enumerator_labels_witness :
    (c2dir.map Prod.fst).Nodup ∧
    labeled_image_list "root" c2dir ≠ [] ∧
    1 < (folders c2dir).length ∧
    (label_map (folders c2dir) ((folders c2dir).get ⟨1, by decide⟩) = 1 ∧
     (label_list "root" c2dir).length = (img_list "root" c2dir).length ∧
     create_image_list "root" c2dir =
       [(img_list "root" c2dir).map Sum.inl, (label_list "root" c2dir).map Sum.inr]) :=
  ⟨by decide, by decide, by decide,
    c2_enumerator_labels "root" c2dir (by decide) (by decide) 1 (by decide)⟩

/-- C10: under distinct folder names, the class list is in lexicographic
order and the label sequence returned by the enumerator is
non-decreasing (so images of one class are contiguous and the classes
appear in sorted folder-name order). -/
theorem c10_labels_sorted (img_dir : String) (dir : DirListing)
    (hnd : (dir.map Prod.fst).Nodup) :
    List.Sorted (fun a b => pyStrLe a b = true) (folders dir) ∧
    (label_list img_dir dir).Pairwise (· ≤ ·) := by
  constructor
  · exact List.sorted_insertionSort _ _
  · rw [label_list_eq, List.flatMap_def]
    refine List.pairwise_flatten.mpr ⟨?_, ?_⟩
    · intro l hl
      rcases List.mem_map.mp hl with ⟨f, hf, rfl⟩
      exact List.pairwise_replicate.mpr (Or.inr le_rfl)
    · rw [List.pairwise_map, List.pairwise_iff_get]
      intro i j hij x hx y hy
      rw [List.eq_of_mem_replicate hx, List.eq_of_mem_replicate hy]
      have hnd' := folders_nodup dir hnd
      rw [label_map_get _ hnd' i i.isLt, label_map_get _ hnd' j j.isLt]
      exact Nat.le_of_lt hij

/-- Concrete directory for the C10 witness. -/
def c10dir : DirListing := [("water", ["w1"]), ("forest", ["f1", "f2"])]

/-- Witness for c10_labels_sorted. -/
theorem c10_labels_sorted_witness :
    (c10dir.map Prod.fst).Nodup ∧
    (List.Sorted (fun a b => pyStrLe a b = true) (folders c10dir) ∧
     (label_list "root" c10dir).Pairwise (· ≤ ·)) :=
  ⟨by decide, c10_labels_sorted "root" c10dir (by decide)⟩

/-- C5 counterexample: on an empty root directory create_image_list
returns zip of an empty comprehension, which is a transpose with zero
rows, not the claimed pair of two empty sequences; the two-variable
unpacking at the call site therefore fails. -/
theorem c5_counterexample : create_image_list "root" [] ≠ [[], []] := by decide

/-- C5 amended: for an empty root directory the enumerator returns an
empty zip object (a transpose with zero rows) rather than two empty
sequences, and the caller that unpacks it into two sequences fails. -/
theorem c5_empty_dir : create_image_list "root" [] = [] := by decide

/-- Concrete directory of the C6 end-to-end scenario: water with three
images and forest with five. -/
def c6dir : DirListing :=
  [("water", ["w1", "w2", "w3"]), ("forest", ["f1", "f2", "f3", "f4", "f5"])]

/-- C6 counterexample: the lexicographic sort places forest before
water, so the claimed label assignment water to 0 and forest to 1 is
false for this directory. -/
theorem c6_counterexample :
    ¬ (label_map (folders c6dir) "water" = 0 ∧
       label_map (folders c6dir) "forest" = 1) := by decide

/-- C6 amended: for the directory with classes water (3 images) and
forest (5 images) the enumerator assigns forest label 0 and water label
1; the 8 resulting images with batch size 4 give exactly 2 emitted
batches covering all 8 images, so 0 images are dropped. -/
theorem c6_scenario :
    label_map (folders c6dir) "forest" = 0 ∧
    label_map (folders c6dir) "water" = 1 ∧
    (img_list "root" c6dir).length = 8 ∧
    (ImageGenerator.mk (img_list "root" c6dir) 4).batches.length = 2 ∧
    (ImageGenerator.mk (img_list "root" c6dir) 4).batches.flatten =
      img_list "root" c6dir := by decide

/-- ResNetFeaturizer.extract: builds an ImageGenerator over the image
list with the source default batch_size of 64 and runs the backbone over
the emitted batches with Model.predict_generator.  The network forward
pass is external; it is abstracted as a per-image function applied to
every image the generator emits, in emission order. -/
def featurizer_extract {α β : Type} (backbone : α → β) (image_list : List α) : List β :=
  ((ImageGenerator.mk image_list 64).batches.flatten).map backbone

/-- The feature-preparation cell of src/Sandbox/TrainingCodeSnippets.ipynb
after train_test_split: extracts train and validation features, then
  train_labels = train_labels[0:len(train_features)]
  valid_labels = train_labels[0:len(valid_features)]
where the second line reads the just-truncated train_labels, not the
validation label array.  Returns (train_features, valid_features,
persisted train labels, persisted validation labels). -/
def feature_prep {α β : Type} (backbone : α → β)
    (train_imgs valid_imgs : List α) (train_labels valid_labels : List Nat) :
    List β × List β × List Nat × List Nat :=
  let train_features := featurizer_extract backbone train_imgs
  let valid_features := featurizer_extract backbone valid_imgs
  let train_labels2 := train_labels.take train_features.length
  let valid_labels2 := train_labels2.take valid_features.length
  (train_features, valid_features, train_labels2, valid_labels2)

/-- C3: the code pairs the validation feature vectors with a prefix of
the training label array instead of the validation labels.  At a split
with 64 training images all labeled 0 and 64 validation images all
labeled 1, the persisted validation labels are 64 zeros although every
validation image carries label 1. -/
theorem c3_valid_labels_bug :
    (feature_prep (fun n => n) (List.range 64) (List.range 64)
        (List.replicate 64 0) (List.replicate 64 1)).2.2.2 =
      List.replicate 64 0 ∧
    (List.replicate 64 (0 : Nat) ≠
      (List.replicate 64 (1 : Nat)).take
        (feature_prep (fun n => n) (List.range 64) (List.range 64)
          (List.replicate 64 0) (List.replicate 64 1)).2.1.length) := by
  constructor
  · decide
  · decide

/-- Exact decimal literal of the source, read as mant / 10 ^ exp.  The
numeric values the notebooks pass for the l1 and l2 hyperparameters and
the float flag defaults are compared only as literals, so this exact
representation is sufficient. -/
structure DecimalLit where
  mant : Nat
  exp : Nat
deriving DecidableEq

/-- Modelled from the spec: grid sampling "exhaustively enumerates the
Cartesian product of discrete candidate values" (glossary); the
GridParameterSampling service itself is external to the repository, the
notebook only supplies the three candidate value lists. -/
def gridCombinations (units l1cands l2cands : List DecimalLit) :
    List (DecimalLit × DecimalLit × DecimalLit) :=
  units.flatMap (fun u =>
    l1cands.flatMap (fun a =>
      l2cands.map (fun b => (u, a, b))))

/-- Modelled from the spec: the hyperdrive run is "bounded by a maximum
total run count" (spec 4.5), so the service submits at most
max_total_runs of the enumerated combinations, one job per
combination. -/
def submittedRuns (units l1cands l2cands : List DecimalLit)
    (max_total_runs : Nat) : List (DecimalLit × DecimalLit × DecimalLit) :=
  (gridCombinations units l1cands l2cands).take max_total_runs

/-- choice(256, 512) for the units flag in src/unnamed/part_000. -/
def hyperdrive_units : List DecimalLit := [⟨256, 0⟩, ⟨512, 0⟩]

/-- choice(0.001, 0.01, 0.05) for the l1 flag. -/
def hyperdrive_l1 : List DecimalLit := [⟨1, 3⟩, ⟨1, 2⟩, ⟨5, 2⟩]

/-- choice(0.001, 0.01, 0.05) for the l2 flag. -/
def hyperdrive_l2 : List DecimalLit := [⟨1, 3⟩, ⟨1, 2⟩, ⟨5, 2⟩]

/-- max_total_runs=12 in the HyperDriveRunConfig cell. -/
def hyperdrive_max_total_runs : Nat := 12

/-- max_concurrent_runs=4 in the HyperDriveRunConfig cell. -/
def hyperdrive_max_concurrent_runs : Nat := 4

/-- C4 counterexample: the grid holds 2 x 3 x 3 = 18 combinations but
max_total_runs caps submission at 12, so the combination
(512, 0.05, 0.05) belongs to the grid yet is never submitted: the full
Cartesian product is not run. -/
theorem c4_counterexample :
    (⟨512, 0⟩, ⟨5, 2⟩, ⟨5, 2⟩) ∈
      gridCombinations hyperdrive_units hyperdrive_l1 hyperdrive_l2 ∧
    (⟨512, 0⟩, ⟨5, 2⟩, ⟨5, 2⟩) ∉
      submittedRuns hyperdrive_units hyperdrive_l1 hyperdrive_l2
        hyperdrive_max_total_runs := by decide

/-- C4 amended: the grid enumerates the full Cartesian product of
2 x 3 x 3 = 18 combinations and no combination appears twice, but the
configured max_total_runs = 12 bounds the submission, so only the first
12 of the 18 combinations are submitted, each at most once. -/
theorem c4_grid_bounded :
    (gridCombinations hyperdrive_units hyperdrive_l1 hyperdrive_l2).length = 2 * 3 * 3 ∧
    (gridCombinations hyperdrive_units hyperdrive_l1 hyperdrive_l2).Nodup ∧
    (submittedRuns hyperdrive_units hyperdrive_l1 hyperdrive_l2
        hyperdrive_max_total_runs).length = 12 ∧
    (submittedRuns hyperdrive_units hyperdrive_l1 hyperdrive_l2
        hyperdrive_max_total_runs).Nodup ∧
    hyperdrive_max_total_runs < 2 * 3 * 3 := by decide

/-- The type of a tf.app.flags definition in the training script. -/
inductive FlagType where
  | int
  | float
  | str
deriving DecidableEq

/-- The default value of a tf.app.flags definition. -/
inductive FlagValue where
  | intV (n : Int)
  | floatV (d : DecimalLit)
  | strV (s : String)
deriving DecidableEq

/-- One tf.app.flags.DEFINE_* call: flag name, type, default value and
help text. -/
structure FlagDef where
  name : String
  type : FlagType
  value : FlagValue
  help : String
deriving DecidableEq

/-- The DEFINE_* block of the remote training script train.py, written
identically by src/02-train/02-train.ipynb and the hyperdrive notebook
in src/unnamed/part_000 (help texts copied verbatim, including the
repeated one on the units flag). -/
def train_script_flags : List FlagDef :=
  [⟨"batch_size", FlagType.int, FlagValue.intV 32, "Number of images per batch"⟩,
   ⟨"epochs", FlagType.int, FlagValue.intV 10, "Number of epochs to train"⟩,
   ⟨"units", FlagType.int, FlagValue.intV 512, "Number of epochs to train"⟩,
   ⟨"l1", FlagType.float, FlagValue.floatV ⟨1, 2⟩, "l1 regularization"⟩,
   ⟨"l2", FlagType.float, FlagValue.floatV ⟨1, 2⟩, "l2 regularization"⟩,
   ⟨"data_folder", FlagType.str, FlagValue.strV "./bottleneck",
     "Folder with bottleneck features and labels"⟩,
   ⟨"train_file_name", FlagType.str, FlagValue.strV "aerial_bottleneck_train.h5",
     "Training file name"⟩,
   ⟨"valid_file_name", FlagType.str, FlagValue.strV "aerial_bottleneck_valid.h5",
     "Validation file name"⟩]

/-- Lookup of a flag definition by name. -/
def flagLookup (n : String) : Option FlagDef :=
  train_script_flags.find? (fun f => f.name == n)

/-- The type and default of a flag, when the flag is defined. -/
def flagSig (n : String) : Option (FlagType × FlagValue) :=
  (flagLookup n).map (fun f => (f.type, f.value))

/-- C7: the CLI surface of the remote training script is exactly the
eight claimed flags with the claimed types and defaults: batch_size
(int, 32), epochs (int, 10), units (int, 512), l1 (float, 0.01), l2
(float, 0.01), data_folder (string, "./bottleneck"), train_file_name and
valid_file_name (string flags holding the bottleneck file names). -/
theorem c7_cli_surface :
    train_script_flags.map FlagDef.name =
      ["batch_size", "epochs", "units", "l1", "l2", "data_folder",
       "train_file_name", "valid_file_name"] ∧
    flagSig "batch_size" = some (FlagType.int, FlagValue.intV 32) ∧
    flagSig "epochs" = some (FlagType.int, FlagValue.intV 10) ∧
    flagSig "units" = some (FlagType.int, FlagValue.intV 512) ∧
    flagSig "l1" = some (FlagType.float, FlagValue.floatV ⟨1, 2⟩) ∧
    flagSig "l2" = some (FlagType.float, FlagValue.floatV ⟨1, 2⟩) ∧
    flagSig "data_folder" = some (FlagType.str, FlagValue.strV "./bottleneck") ∧
    flagSig "train_file_name" =
      some (FlagType.str, FlagValue.strV "aerial_bottleneck_train.h5") ∧
    flagSig "valid_file_name" =
      some (FlagType.str, FlagValue.strV "aerial_bottleneck_valid.h5") := by decide

/-- Exceptions observable at the compute-target lookup: the SDK's
ComputeTargetException and everything else (file I/O, network, remote
failures), identified by class name. -/
inductive PyExc where
  | computeTargetException
  | otherExc (className : String)
deriving DecidableEq

/-- Outcome of a Python expression: a value, or a raised exception. -/
inductive PyResult (α : Type) where
  | ok (a : α)
  | raised (e : PyExc)
deriving DecidableEq

/-- The compute-target setup cell (02-train.ipynb and part_000): a try
block whose except clause names exactly ComputeTargetException.  On a
successful lookup the looked-up target is used as is (in part_000 a
non-BatchAI target only changes the printed message); on
ComputeTargetException a new target is created; any other exception
escapes the try statement.  The Bool records whether the creation path
ran. -/
def setup_compute_target {α : Type} (lookup : PyResult α) (create : α) :
    PyResult (α × Bool) :=
  match lookup with
  | PyResult.ok t => PyResult.ok (t, false)
  | PyResult.raised PyExc.computeTargetException => PyResult.ok (create, true)
  | PyResult.raised e => PyResult.raised e

/-- Whether the setup ended with a newly created target. -/
def created_new {α : Type} : PyResult (α × Bool) → Bool
  | PyResult.ok (_, b) => b
  | PyResult.raised _ => false

/-- C8: the setup creates a new compute target if and only if the
lookup raised ComputeTargetException; a successful lookup reuses the
existing target without creating one; any exception other than
ComputeTargetException propagates unhandled without triggering
creation. -/
theorem c8_compute_target_lookup {α : Type} (lookup : PyResult α) (create t : α)
    (e : PyExc) (he : e ≠ PyExc.computeTargetException) :
    (created_new (setup_compute_target lookup create) = true ↔
      lookup = PyResult.raised PyExc.computeTargetException) ∧
    setup_compute_target (PyResult.ok t) create = PyResult.ok (t, false) ∧
    setup_compute_target (PyResult.raised e) create = PyResult.raised e := by
  refine ⟨?_, rfl, ?_⟩
  · constructor
    · intro hc
      cases lookup with
      | ok t' => simp [setup_compute_target, created_new] at hc
      | raised e' =>
          cases e' with
          | computeTargetException => rfl
          | otherExc s => simp [setup_compute_target, created_new] at hc
    · intro hl
      rw [hl]
      rfl
  · cases e with
    | computeTargetException => exact absurd rfl he
    | otherExc s => rfl

/-- Witness for c8_compute_target_lookup: a lookup that raises
ComputeTargetException, over targets numbered by naturals, with an
unrelated OSError for the propagation part. -/
theorem c8_compute_target_lookup_witness :
    (PyExc.otherExc "OSError" ≠ PyExc.computeTargetException) ∧
    ((created_new (setup_compute_target
        (PyResult.raised PyExc.computeTargetException) (7 : Nat)) = true ↔
      (PyResult.raised PyExc.computeTargetException : PyResult Nat) =
        PyResult.raised PyExc.computeTargetException) ∧
     setup_compute_target (PyResult.ok (5 : Nat)) 7 = PyResult.ok (5, false) ∧
     setup_compute_target (PyResult.raised (PyExc.otherExc "OSError") : PyResult Nat) 7 =
       PyResult.raised (PyExc.otherExc "OSError")) :=
  ⟨by decide,
    c8_compute_target_lookup (PyResult.raised PyExc.computeTargetException) 7 5
      (PyExc.otherExc "OSError") (by decide)⟩
